import Mathlib

/-!
Verification development for the twitter-rss-feeds repository
(`src/twitter_rss.py`, class `SimpleTwitterRSS`).

The shallow embedding below translates the repository's change-detection
core into Lean:

* `calculate_hash`    — `SimpleTwitterRSS.calculate_hash` (lines 90-96),
  including a byte-faithful executable SHA-256 (Python's `hashlib.sha256`
  over the UTF-8 encoding of the content string, hex digest truncated to
  16 characters).
* `load_accounts`     — `SimpleTwitterRSS.load_accounts` (lines 52-66);
  the file is modelled as `Option (List String)` (`none` = the
  `FileNotFoundError` case).
* `fetch_tweets`      — `SimpleTwitterRSS.fetch_tweets` (lines 98-132);
  the network/BeautifulSoup pipeline for one mirror is abstracted into a
  parameter `extract : String → List String` giving the snippets obtained
  from that mirror (an exception, a non-200 status or no matching
  elements all yield `[]`, exactly as the `try/except`+selector loop does).
* `generate_rss`      — `SimpleTwitterRSS.generate_rss` (lines 134-174);
  the feedgen XML serialisation is external, so the model returns the list
  of entries with their title/description/link/guid.  `hashlib.md5(...)
  .hexdigest()[:8]` for per-tweet ids is an external-library call passed
  in as the parameter `md5hex8`; `int(time.time())` is the `now : Nat`
  argument, and `strftime` text is abstracted to the decimal timestamp.
* `process_account`   — `SimpleTwitterRSS.process_account` (lines 176-244);
  `load_state` is reflected by passing the loaded `AccountState` in and
  `save_state`/the RSS file write are reflected by the `savedState` and
  `feedWritten` fields of the result.  The decision chain of lines
  195-218 is `decide_update`.  Timestamps are seconds since the epoch as
  `Nat`; `hours_since > 12` on floats is `43200 < now - t` (equivalent
  for the clock model, including the clock-skew case where Python's
  negative difference and Nat's truncated subtraction both decide
  `false`).
* `run` / `run_loop`  — `SimpleTwitterRSS.run` (lines 281-306), with the
  per-account disk state as a map `String → AccountState`.
* `main_exit`         — the exit-code logic of `main` (lines 308-346):
  `sys.exit(1)` when nothing was updated, `sys.exit(0)` otherwise.
* `force_reset`       — the `--force` branch of `main` (lines 316-326),
  which clears `last_hash` only.
-/

namespace TwitterRSS

/-! ### SHA-256, byte-faithful (Python `hashlib.sha256`, hex digest) -/

/-- 2^32, the word modulus of SHA-256. -/
def M32 : Nat := 4294967296

def add32 (a b : Nat) : Nat := (a + b) % M32

def not32 (a : Nat) : Nat := a ^^^ 4294967295

/-- Right rotation of a 32-bit word. -/
def rotr32 (n a : Nat) : Nat := (a >>> n) ||| ((a &&& (2 ^ n - 1)) <<< (32 - n))

def bsig0 (x : Nat) : Nat := rotr32 2 x ^^^ rotr32 13 x ^^^ rotr32 22 x

def bsig1 (x : Nat) : Nat := rotr32 6 x ^^^ rotr32 11 x ^^^ rotr32 25 x

def ssig0 (x : Nat) : Nat := rotr32 7 x ^^^ rotr32 18 x ^^^ (x >>> 3)

def ssig1 (x : Nat) : Nat := rotr32 17 x ^^^ rotr32 19 x ^^^ (x >>> 10)

def ch32 (e f g : Nat) : Nat := (e &&& f) ^^^ (not32 e &&& g)

def maj32 (a b c : Nat) : Nat := (a &&& b) ^^^ (a &&& c) ^^^ (b &&& c)

/-- The 64 SHA-256 round constants. -/
def K256 : List Nat :=
  [1116352408, 1899447441, 3049323471, 3921009573, 961987163, 1508970993,
   2453635748, 2870763221, 3624381080, 310598401, 607225278, 1426881987,
   1925078388, 2162078206, 2614888103, 3248222580, 3835390401, 4022224774,
   264347078, 604807628, 770255983, 1249150122, 1555081692, 1996064986,
   2554220882, 2821834349, 2952996808, 3210313671, 3336571891, 3584528711,
   113926993, 338241895, 666307205, 773529912, 1294757372, 1396182291,
   1695183700, 1986661051, 2177026350, 2456956037, 2730485921, 2820302411,
   3259730800, 3345764771, 3516065817, 3600352804, 4094571909, 275423344,
   430227734, 506948616, 659060556, 883997877, 958139571, 1322822218,
   1537002063, 1747873779, 1955562222, 2024104815, 2227730452, 2361852424,
   2428436474, 2756734187, 3204031479, 3329325298]

/-- Working state (and chaining value) of the SHA-256 compression. -/
structure Sha256State where
  a : Nat
  b : Nat
  c : Nat
  d : Nat
  e : Nat
  f : Nat
  g : Nat
  h : Nat
deriving Repr, DecidableEq

/-- Initial hash value H(0) of SHA-256. -/
def H256 : Sha256State :=
  ⟨1779033703, 3144134277, 1013904242, 2773480762,
   1359893119, 2600822924, 528734635, 1541459225⟩

/-- One round of the SHA-256 compression function. -/
def sha_step (st : Sha256State) (k w : Nat) : Sha256State :=
  let t1 := add32 (add32 (add32 st.h (bsig1 st.e)) (add32 (ch32 st.e st.f st.g) k)) w
  let t2 := add32 (bsig0 st.a) (maj32 st.a st.b st.c)
  { a := add32 t1 t2, b := st.a, c := st.b, d := st.c,
    e := add32 st.d t1, f := st.e, g := st.f, h := st.g }

/-- Big-endian 32-bit word from the first four bytes of a list. -/
def be4 (l : List Nat) : Nat :=
  l.getD 0 0 * 16777216 + l.getD 1 0 * 65536 + l.getD 2 0 * 256 + l.getD 3 0

/-- The 64-entry message schedule of one 64-byte chunk. -/
def buildW (chunk : List Nat) : List Nat :=
  let w0 := (List.range 16).map (fun i => be4 (chunk.drop (4 * i)))
  (List.range 48).foldl
    (fun w _ =>
      let n := w.length
      w ++ [add32 (add32 (ssig1 (w.getD (n - 2) 0)) (w.getD (n - 7) 0))
              (add32 (ssig0 (w.getD (n - 15) 0)) (w.getD (n - 16) 0))])
    w0

/-- Process one 64-byte chunk. -/
def sha_compress (hs : Sha256State) (chunk : List Nat) : Sha256State :=
  let w := buildW chunk
  let stf := (K256.zip w).foldl (fun st p => sha_step st p.1 p.2) hs
  { a := add32 hs.a stf.a, b := add32 hs.b stf.b, c := add32 hs.c stf.c,
    d := add32 hs.d stf.d, e := add32 hs.e stf.e, f := add32 hs.f stf.f,
    g := add32 hs.g stf.g, h := add32 hs.h stf.h }

/-- SHA-256 padding: 0x80, zeros to 56 mod 64, 8-byte big-endian bit length. -/
def shaPad (msg : List Nat) : List Nat :=
  let L := msg.length
  let zeros := (119 - L % 64) % 64
  msg ++ [128] ++ List.replicate zeros 0
      ++ (List.range 8).map (fun i => (8 * L) >>> (8 * (7 - i)) % 256)

/-- Split a byte list into 64-byte chunks (fuel-driven structural recursion;
any fuel at least the list length, as supplied by `chunks64`, is enough
because every step consumes 64 bytes). -/
def chunksAux : Nat → List Nat → List (List Nat)
  | 0, _ => []
  | _, [] => []
  | fuel + 1, l => l.take 64 :: chunksAux fuel (l.drop 64)

/-- Split a byte list into 64-byte chunks. -/
def chunks64 (l : List Nat) : List (List Nat) := chunksAux l.length l

/-- Lower-case hex digit. -/
def hexDigit (n : Nat) : Char :=
  if n < 10 then Char.ofNat (48 + n) else Char.ofNat (87 + n)

/-- Eight lower-case hex digits of a 32-bit word, most significant first. -/
def hexWord8 (w : Nat) : List Char :=
  (List.range 8).map (fun i => hexDigit (w >>> (4 * (7 - i)) % 16))

/-- Full SHA-256 hex digest (64 characters) of a byte list. -/
def sha256hexChars (msg : List Nat) : List Char :=
  let d := (chunks64 (shaPad msg)).foldl sha_compress H256
  hexWord8 d.a ++ hexWord8 d.b ++ hexWord8 d.c ++ hexWord8 d.d ++
  hexWord8 d.e ++ hexWord8 d.f ++ hexWord8 d.g ++ hexWord8 d.h

/-- UTF-8 encoding of one character (Python `str.encode()`). -/
def utf8Bytes (c : Char) : List Nat :=
  let n := c.toNat
  if n < 128 then [n]
  else if n < 2048 then [192 + n / 64, 128 + n % 64]
  else if n < 65536 then [224 + n / 4096, 128 + n / 64 % 64, 128 + n % 64]
  else [240 + n / 262144, 128 + n / 4096 % 64, 128 + n / 64 % 64, 128 + n % 64]

/-- UTF-8 bytes of a string. -/
def strBytes (s : String) : List Nat := (s.data.map utf8Bytes).flatten

/-! ### The repository's operations -/

/--
`calculate_hash` (lines 90-96): `'no_tweets'` for an empty list, otherwise
`hashlib.sha256(''.join(t[:200] for t in tweets[:3]).encode()).hexdigest()[:16]`.
Python string slicing is by code points, i.e. `List.take` on `String.data`.
-/
def calculate_hash (tweets : List String) : String :=
  if tweets = [] then "no_tweets"
  else
    let content := String.join ((tweets.take 3).map (fun t => String.mk (t.data.take 200)))
    String.mk ((sha256hexChars (strBytes content)).take 16)

/-- The ASCII whitespace removed by Python's `str.strip()`. -/
def isPySpace (c : Char) : Bool :=
  c == ' ' || c == '\t' || c == '\n' || c == '\r' || c == '\x0b' || c == '\x0c'

/-- Python `str.strip()`: drop leading and trailing whitespace. -/
def pyStrip (s : String) : String :=
  ⟨((s.data.dropWhile isPySpace).reverse.dropWhile isPySpace).reverse⟩

/-- Python `str.lower()` (account handles are ASCII; the ASCII case map
is the faithful fragment). -/
def pyLower (s : String) : String :=
  ⟨s.data.map (fun c =>
    if 65 ≤ c.toNat ∧ c.toNat ≤ 90 then Char.ofNat (c.toNat + 32) else c)⟩

/-- Python `s.startswith(pre)`. -/
def pyStartsWith (s pre : String) : Bool := pre.data.isPrefixOf s.data

/--
`load_accounts` (lines 52-66).  The `accounts.txt` file is `none` when
missing (`FileNotFoundError`, which the code turns into `[]`) and
`some lines` otherwise.  Each line is stripped, blank lines and lines
starting with `'#'` are skipped, and the kept line is appended lowercased.
-/
def load_accounts (file : Option (List String)) : List String :=
  match file with
  | none => []
  | some lines =>
    lines.foldl
      (fun acc line =>
        let l := pyStrip line
        if l ≠ "" ∧ ¬ pyStartsWith l "#" then acc ++ [pyLower l] else acc)
      []

/-- The fixed mirror list `self.instances` (lines 33-39). -/
def instances : List String :=
  ["https://nitter.net", "https://nitter.kavin.rocks", "https://nitter.fdn.fr",
   "https://nitter.1d4.us", "https://nitter.privacydev.net"]

/--
The mirror loop of `fetch_tweets` (lines 103-130): try each mirror in
order; `extract m` is the snippet list obtained from mirror `m` (empty on
any request error, non-200 status or selector miss).  The first mirror
with a non-empty result wins.
-/
def fetch_loop (extract : String → List String) : List String → Option (List String × String)
  | [] => none
  | inst :: rest =>
    let tweets := extract inst
    if tweets = [] then fetch_loop extract rest else some (tweets, inst)

/--
`fetch_tweets` (lines 98-132).  `instance_used` is initialised to
`self.instances[0]` before the loop and only overwritten on success, so
when every mirror is exhausted the function returns
`([], instances[0])`.
-/
def fetch_tweets (extract : String → List String) : List String × String :=
  match fetch_loop extract instances with
  | some r => r
  | none => ([], instances.headD "")

/-- One `<item>` of the generated RSS document (lines 146-171). -/
structure Entry where
  title : String
  description : String
  link : String
  guid : String
deriving Repr, DecidableEq, Inhabited

/--
`generate_rss` (lines 134-174), modelled as the list of feed entries
(feedgen's XML serialisation and the feed-level metadata of lines 138-144
are external-library calls).  `md5hex8` stands for
`hashlib.md5(...).hexdigest()[:8]`, `now` for `int(time.time())`, and the
`strftime` text inside the placeholder description is abstracted to the
decimal timestamp.
-/
def generate_rss (md5hex8 : String → String) (username : String)
    (tweets : List String) (now : Nat) : List Entry :=
  if tweets ≠ [] then
    (tweets.take 20).map (fun text =>
      let tweet_id := md5hex8 (username ++ "_" ++ text)
      { title := if 80 < text.data.length then String.mk (text.data.take 80) ++ "..." else text,
        description := text,
        link := "https://twitter.com/" ++ username ++ "/status/" ++ tweet_id,
        guid := "twitter_" ++ username ++ "_" ++ tweet_id })
  else
    [{ title := "@" ++ username ++ " - 暂无新推文",
       description := "更新时间: " ++ Nat.repr now,
       link := "https://twitter.com/" ++ username,
       guid := "placeholder_" ++ username ++ "_" ++ Nat.repr now }]

/--
Per-account persisted state (`load_state` default, lines 77-83; the saved
record of lines 231-238).  `update_reason` is the extra key written on
update and never read back.  Timestamps are epoch seconds.
-/
structure AccountState where
  last_hash : Option String
  last_update : Option Nat
  last_count : Nat
  failures : Nat
  instance_used : Option String
  update_reason : Option String := none
deriving Repr, DecidableEq

/-- The `load_state` default record (lines 77-83). -/
def default_state : AccountState :=
  { last_hash := none, last_update := none, last_count := 0,
    failures := 0, instance_used := none, update_reason := none }

/-- Python truthiness of the stored hash: `None` and `''` are falsy. -/
def isFalsy : Option String → Bool
  | none => true
  | some s => s == ""

/--
The decision chain of `process_account`, lines 195-218.  The reason
strings of the code are kept verbatim except that the Chinese
`"推文更新 (a → b)"` count interpolation is rendered with `Nat.repr`.
`hours_since > 12` on the float difference of `datetime.now()` and the
stored ISO timestamp is `43200 < now - t` over epoch seconds (the
`fromisoformat` parse of line 212 cannot fail for timestamps the model
itself stored, matching every state the program writes).
-/
def decide_update (last_hash : Option String) (last_count : Nat)
    (last_update : Option Nat) (current_hash : String) (current_count : Nat)
    (now : Nat) : Bool × String :=
  if isFalsy last_hash then (true, "首次运行")
  else if current_hash ≠ last_hash.getD "" then
    (true, "推文更新 (" ++ Nat.repr last_count ++ " → " ++ Nat.repr current_count ++ ")")
  else if current_count = 0 ∧ last_count = 0 then
    match last_update with
    | some t => if 43200 < now - t then (true, "保活更新 (12h)") else (false, "")
    | none => (false, "")
  else (false, "")

/--
Observable effects of one `process_account` call (lines 176-244):
the returned bool (`updated`), whether `fetch_tweets` was reached
(`fetched`, false only on the consecutive-failures skip of lines 186-188),
whether `feeds/{username}.rss` was written (`feedWritten`, line 227-228),
the record passed to `save_state` if any (`savedState`, lines 231-239),
and the local `reason` string.
-/
structure ProcResult where
  updated : Bool
  fetched : Bool
  feedWritten : Bool
  savedState : Option AccountState
  reason : String
deriving Repr, DecidableEq

/--
`process_account` (lines 176-244).  `state` is the record `load_state`
returned; `fetch` is the (pure, hence unchanged-between-calls) fetch
outcome `fetch_tweets` would produce for this account.
-/
def process_account (state : AccountState) (fetch : Unit → List String × String)
    (now : Nat) : ProcResult :=
  if 3 ≤ state.failures then
    { updated := false, fetched := false, feedWritten := false,
      savedState := none, reason := "连续失败跳过" }
  else
    let tweets := (fetch ()).1
    let instance_used := (fetch ()).2
    let current_hash := calculate_hash tweets
    let current_count := tweets.length
    let dec := decide_update state.last_hash state.last_count state.last_update
                 current_hash current_count now
    if dec.1 then
      { updated := true, fetched := true, feedWritten := true,
        savedState := some
          { last_hash := some current_hash,
            last_update := some now,
            last_count := current_count,
            failures := if tweets = [] then state.failures + 1 else 0,
            instance_used := some instance_used,
            update_reason := some dec.2 },
        reason := dec.2 }
    else
      { updated := false, fetched := true, feedWritten := false,
        savedState := none, reason := dec.2 }

/-- The on-disk state after one `process_account` call for one account. -/
def state_after (s : AccountState) (fetch : Unit → List String × String)
    (now : Nat) : AccountState :=
  (process_account s fetch now).savedState.getD s

/--
The account loop of `run` (lines 292-301): process each account in order
against the per-account disk state, count the accounts that reported an
update.
-/
def run_loop : List String → (String → AccountState) →
    (String → Unit → List String × String) → Nat → (String → AccountState) × Nat
  | [], states, _, _ => (states, 0)
  | a :: rest, states, fetch, now =>
    let r := process_account (states a) (fetch a) now
    let states2 := fun u => if u = a then r.savedState.getD (states a) else states u
    let rec2 := run_loop rest states2 fetch now
    (rec2.1, (if r.updated then 1 else 0) + rec2.2)

/--
`run` (lines 281-306): load the accounts, return `(0, 0)` when there are
none, otherwise `(updated_count, len(accounts))`.
-/
def run (file : Option (List String)) (states : String → AccountState)
    (fetch : String → Unit → List String × String) (now : Nat) : Nat × Nat :=
  let accounts := load_accounts file
  if accounts = [] then (0, 0)
  else ((run_loop accounts states fetch now).2, accounts.length)

/--
The exit status `main` produces (lines 342-346): `sys.exit(1)` when
`updated == 0`, `sys.exit(0)` otherwise.
-/
def main_exit (file : Option (List String)) (states : String → AccountState)
    (fetch : String → Unit → List String × String) (now : Nat) : Nat :=
  if (run file states fetch now).1 = 0 then 1 else 0

/--
The `--force` branch of `main` (lines 318-326): the stored state has only
its `last_hash` cleared and is saved back.
-/
def force_reset (s : AccountState) : AccountState := { s with last_hash := none }

/-! ### Basic facts about the fingerprint -/

theorem hexWord8_length (w : Nat) : (hexWord8 w).length = 8 := by
  simp [hexWord8]

theorem sha256hexChars_length (msg : List Nat) : (sha256hexChars msg).length = 64 := by
  simp [sha256hexChars, hexWord8_length]

theorem calculate_hash_nil : calculate_hash [] = "no_tweets" := rfl

theorem calculate_hash_eq_of_ne_nil (ts : List String) (h : ts ≠ []) :
    calculate_hash ts =
      String.mk ((sha256hexChars (strBytes
        (String.join ((ts.take 3).map (fun t => String.mk (t.data.take 200)))))).take 16) := by
  rw [calculate_hash, if_neg h]

theorem calculate_hash_length (ts : List String) (h : ts ≠ []) :
    (calculate_hash ts).length = 16 := by
  rw [calculate_hash_eq_of_ne_nil ts h]
  show (List.take 16 _).length = 16
  rw [List.length_take, sha256hexChars_length]
  decide

theorem calculate_hash_ne_sentinel (ts : List String) (h : ts ≠ []) :
    calculate_hash ts ≠ "no_tweets" := by
  intro he
  have := congrArg String.length he
  rw [calculate_hash_length ts h] at this
  exact absurd this (by decide)

theorem calculate_hash_eq_sentinel_iff (ts : List String) :
    calculate_hash ts = "no_tweets" ↔ ts = [] := by
  constructor
  · intro he
    by_contra hne
    exact calculate_hash_ne_sentinel ts hne he
  · intro he
    subst he
    rfl

theorem calculate_hash_ne_empty (ts : List String) : calculate_hash ts ≠ "" := by
  intro he
  have := congrArg String.length he
  by_cases h : ts = []
  · subst h
    exact absurd (congrArg String.length he) (by decide)
  · rw [calculate_hash_length ts h] at this
    exact absurd this (by decide)

/-! ### Facts about the decision chain -/

theorem decide_update_firstRun (lh : Option String) (lc : Nat) (lu : Option Nat)
    (ch : String) (cc now : Nat) (h : isFalsy lh = true) :
    decide_update lh lc lu ch cc now = (true, "首次运行") := by
  simp [decide_update, h]

theorem decide_update_changed (lh : Option String) (lc : Nat) (lu : Option Nat)
    (ch : String) (cc now : Nat) (h1 : isFalsy lh = false) (h2 : ch ≠ lh.getD "") :
    decide_update lh lc lu ch cc now =
      (true, "推文更新 (" ++ Nat.repr lc ++ " → " ++ Nat.repr cc ++ ")") := by
  simp [decide_update, h1, h2]

theorem decide_update_stable_nonempty (lh : Option String) (lc : Nat) (lu : Option Nat)
    (ch : String) (cc now : Nat) (h1 : isFalsy lh = false) (h2 : ch = lh.getD "")
    (h3 : cc ≠ 0) :
    decide_update lh lc lu ch cc now = (false, "") := by
  simp [decide_update, h1, h2, h3]

theorem decide_update_keepalive (lh : Option String) (lc : Nat) (lu : Option Nat)
    (ch : String) (cc now : Nat) (t : Nat) (h1 : isFalsy lh = false)
    (h2 : ch = lh.getD "") (h3 : cc = 0) (h4 : lc = 0) (h5 : lu = some t) :
    decide_update lh lc lu ch cc now =
      if 43200 < now - t then (true, "保活更新 (12h)") else (false, "") := by
  simp [decide_update, h1, h2, h3, h4, h5]

theorem decide_update_stable_no_timestamp (lh : Option String) (lc : Nat)
    (ch : String) (cc now : Nat) (h1 : isFalsy lh = false) (h2 : ch = lh.getD "") :
    decide_update lh lc none ch cc now = (false, "") := by
  simp [decide_update, h1, h2]

/-- `process_account` on a non-skipped account, written through `decide_update`. -/
theorem process_account_eq (s : AccountState) (f : Unit → List String × String)
    (now : Nat) (h : ¬ 3 ≤ s.failures) :
    process_account s f now =
      (let dec := decide_update s.last_hash s.last_count s.last_update
                    (calculate_hash (f ()).1) (f ()).1.length now
       if dec.1 then
        { updated := true, fetched := true, feedWritten := true,
          savedState := some
            { last_hash := some (calculate_hash (f ()).1),
              last_update := some now,
              last_count := (f ()).1.length,
              failures := if (f ()).1 = [] then s.failures + 1 else 0,
              instance_used := some (f ()).2,
              update_reason := some dec.2 },
          reason := dec.2 }
       else
        { updated := false, fetched := true, feedWritten := false,
          savedState := none, reason := dec.2 }) := by
  unfold process_account
  rw [if_neg h]

theorem process_account_skip (s : AccountState) (f : Unit → List String × String)
    (now : Nat) (h : 3 ≤ s.failures) :
    process_account s f now =
      { updated := false, fetched := false, feedWritten := false,
        savedState := none, reason := "连续失败跳过" } := by
  unfold process_account
  rw [if_pos h]

/--
C2: for every snippet list, `calculate_hash` returns the fixed sentinel
`"no_tweets"` exactly on the empty list, and otherwise the 16-character
truncated SHA-256 hex digest of the concatenation of the first 3 snippets,
each cut to its first 200 characters; the sentinel never equals a
fingerprint of a non-empty snippet list (every such fingerprint has
length 16, while the sentinel has length 9).
-/
theorem C2_fingerprint_sentinel :
    calculate_hash [] = "no_tweets" ∧
    ∀ ts : List String, ts ≠ [] →
      (calculate_hash ts).length = 16 ∧
      calculate_hash ts =
        String.mk ((sha256hexChars (strBytes
          (String.join ((ts.take 3).map (fun t => String.mk (t.data.take 200)))))).take 16) ∧
      calculate_hash ts ≠ "no_tweets" := by
  refine ⟨rfl, fun ts h => ⟨calculate_hash_length ts h, calculate_hash_eq_of_ne_nil ts h,
    calculate_hash_ne_sentinel ts h⟩⟩

/-- Witness for C2 at the concrete snippet list `["hello twitter world"]`. -/
theorem C2_fingerprint_sentinel_witness :
    (calculate_hash ["hello twitter world"]).length = 16 ∧
    calculate_hash ["hello twitter world"] =
      String.mk ((sha256hexChars (strBytes
        (String.join ((["hello twitter world"].take 3).map
          (fun t => String.mk (t.data.take 200)))))).take 16) ∧
    calculate_hash ["hello twitter world"] ≠ "no_tweets" :=
  C2_fingerprint_sentinel.2 ["hello twitter world"] (by decide)

/--
C7: two snippet lists that agree on the fingerprinted prefix — the first
3 snippets, each compared on its first 200 characters — get equal
fingerprints, whatever they contain beyond that prefix.
-/
theorem C7_fingerprint_prefix (s1 s2 : List String)
    (h : (s1.take 3).map (fun t => String.mk (t.data.take 200)) =
         (s2.take 3).map (fun t => String.mk (t.data.take 200))) :
    calculate_hash s1 = calculate_hash s2 := by
  by_cases h1 : s1 = []
  · by_cases h2 : s2 = []
    · rw [h1, h2]
    · subst h1
      simp [List.take_eq_nil_iff, h2] at h
  · by_cases h2 : s2 = []
    · subst h2
      simp [List.take_eq_nil_iff, h1] at h
    · rw [calculate_hash_eq_of_ne_nil s1 h1, calculate_hash_eq_of_ne_nil s2 h2, h]

/-- Witness for C7: two concrete lists agreeing on the first three
snippets but differing in the fourth. -/
theorem C7_fingerprint_prefix_witness :
    calculate_hash ["aa bb cc dd ee", "ff gg hh", "ii jj kk", "extra one"] =
    calculate_hash ["aa bb cc dd ee", "ff gg hh", "ii jj kk", "other tail", "more"] :=
  C7_fingerprint_prefix _ _ (by decide)

/--
C1: the five-state update-decision case analysis of `process_account`,
with the code's literal reason strings standing for the spec's reason
enum: `"首次运行"` = FirstRun, `"推文更新 (a → b)"` = ContentChanged,
`"保活更新 (12h)"` = KeepAlive, `""` = NoChange, and the skip log of
lines 186-188 = SkippedTooManyFailures.
1. stored fingerprint null → update, FirstRun;
2. stored non-null, new fingerprint differs → update, ContentChanged;
3. stored non-null, new fingerprint equal, new count > 0 → no update,
   NoChange;
4. new and stored fingerprints both the empty sentinel, previous count 0,
   stored timestamp present → update iff more than 12 hours (43200 s)
   elapsed, reason KeepAlive respectively NoChange;
5. stored consecutive failures ≥ 3 → skipped before any fetch (the result
   does not depend on the fetch outcome), nothing written, no update.
-/
theorem C1_update_policy :
    (∀ (s : AccountState) (f : Unit → List String × String) (now : Nat),
        s.failures < 3 → s.last_hash = none →
        (process_account s f now).updated = true ∧
        (process_account s f now).reason = "首次运行") ∧
    (∀ (s : AccountState) (f : Unit → List String × String) (now : Nat),
        s.failures < 3 → isFalsy s.last_hash = false →
        calculate_hash (f ()).1 ≠ s.last_hash.getD "" →
        (process_account s f now).updated = true ∧
        (process_account s f now).reason =
          "推文更新 (" ++ Nat.repr s.last_count ++ " → " ++ Nat.repr (f ()).1.length ++ ")") ∧
    (∀ (s : AccountState) (f : Unit → List String × String) (now : Nat),
        s.failures < 3 → isFalsy s.last_hash = false →
        calculate_hash (f ()).1 = s.last_hash.getD "" → (f ()).1.length ≠ 0 →
        (process_account s f now).updated = false ∧
        (process_account s f now).reason = "") ∧
    (∀ (s : AccountState) (f : Unit → List String × String) (now t : Nat),
        s.failures < 3 → s.last_hash = some "no_tweets" →
        calculate_hash (f ()).1 = "no_tweets" → s.last_count = 0 →
        s.last_update = some t →
        ((process_account s f now).updated = true ↔ 43200 < now - t) ∧
        (process_account s f now).reason =
          (if 43200 < now - t then "保活更新 (12h)" else "")) ∧
    (∀ (s : AccountState) (f g : Unit → List String × String) (now : Nat),
        3 ≤ s.failures →
        (process_account s f now).updated = false ∧
        (process_account s f now).fetched = false ∧
        (process_account s f now).savedState = none ∧
        process_account s f now = process_account s g now) := by
  refine ⟨?_, ?_, ?_, ?_, ?_⟩
  · intro s f now h1 h2
    rw [process_account_eq s f now (by omega),
      decide_update_firstRun _ _ _ _ _ _ (by rw [h2]; rfl)]
    exact ⟨rfl, rfl⟩
  · intro s f now h1 h2 h3
    rw [process_account_eq s f now (by omega),
      decide_update_changed _ _ _ _ _ _ h2 h3]
    exact ⟨rfl, rfl⟩
  · intro s f now h1 h2 h3 h4
    rw [process_account_eq s f now (by omega),
      decide_update_stable_nonempty _ _ _ _ _ _ h2 h3 h4]
    exact ⟨rfl, rfl⟩
  · intro s f now t h1 h2 h3 h4 h5
    have hempty : (f ()).1 = [] := (calculate_hash_eq_sentinel_iff _).1 h3
    rw [process_account_eq s f now (by omega),
      decide_update_keepalive _ _ _ _ _ _ t (by rw [h2]; rfl)
        (by rw [h3, h2]; rfl) (by rw [hempty]; rfl) h4 h5]
    by_cases hc : 43200 < now - t
    · rw [if_pos hc, if_pos hc]
      exact ⟨by simp [hc], rfl⟩
    · rw [if_neg hc, if_neg hc]
      exact ⟨by simp [hc], rfl⟩
  · intro s f g now h
    rw [process_account_skip s f now h, process_account_skip s g now h]
    exact ⟨rfl, rfl, rfl, rfl⟩

/-- Concrete fixtures shared by the witnesses. -/
def fetchNE : Unit → List String × String :=
  fun _ => (["a concrete tweet body"], "https://nitter.net")

def fetchMT : Unit → List String × String := fun _ => ([], "https://nitter.net")

def stSeen : AccountState :=
  { last_hash := some "abcd", last_update := some 0, last_count := 1,
    failures := 0, instance_used := none }

def stMatch : AccountState :=
  { last_hash := some "4fb854096f574143", last_update := some 0, last_count := 1,
    failures := 0, instance_used := none }

def stEmpty : AccountState :=
  { last_hash := some "no_tweets", last_update := some 0, last_count := 0,
    failures := 0, instance_used := none }

def stDead : AccountState :=
  { last_hash := none, last_update := none, last_count := 0,
    failures := 3, instance_used := none }

set_option maxRecDepth 10000 in
/-- Witness for C1: all five cases instantiated at concrete states,
fetch outcomes and times. -/
theorem C1_update_policy_witness :
    ((process_account default_state fetchNE 0).updated = true ∧
     (process_account default_state fetchNE 0).reason = "首次运行") ∧
    ((process_account stSeen fetchNE 0).updated = true ∧
     (process_account stSeen fetchNE 0).reason =
       "推文更新 (" ++ Nat.repr stSeen.last_count ++ " → " ++
         Nat.repr (fetchNE ()).1.length ++ ")") ∧
    ((process_account stMatch fetchNE 7).updated = false ∧
     (process_account stMatch fetchNE 7).reason = "") ∧
    (((process_account stEmpty fetchMT 43201).updated = true ↔ 43200 < 43201 - 0) ∧
     (process_account stEmpty fetchMT 43201).reason =
       (if 43200 < 43201 - 0 then "保活更新 (12h)" else "")) ∧
    ((process_account stDead fetchNE 0).updated = false ∧
     (process_account stDead fetchNE 0).fetched = false ∧
     (process_account stDead fetchNE 0).savedState = none ∧
     process_account stDead fetchNE 0 = process_account stDead fetchMT 0) := by
  refine ⟨C1_update_policy.1 default_state fetchNE 0 (by decide) rfl,
    C1_update_policy.2.1 stSeen fetchNE 0 (by decide) rfl ?_,
    C1_update_policy.2.2.1 stMatch fetchNE 7 (by decide) rfl (by decide) (by decide),
    C1_update_policy.2.2.2.1 stEmpty fetchMT 43201 0 (by decide) rfl rfl rfl rfl,
    C1_update_policy.2.2.2.2 stDead fetchNE fetchMT 0 (by decide)⟩
  intro he
  have h16 := calculate_hash_length (fetchNE ()).1 (by decide)
  rw [he] at h16
  exact absurd h16 (by decide)

/-! ### Saved-state bookkeeping lemmas -/

theorem savedState_none_of_not_updated (s : AccountState)
    (f : Unit → List String × String) (now : Nat)
    (h : (process_account s f now).updated = false) :
    (process_account s f now).savedState = none := by
  by_cases hs : 3 ≤ s.failures
  · rw [process_account_skip s f now hs]
  · rw [process_account_eq s f now hs] at h ⊢
    by_cases hd : (decide_update s.last_hash s.last_count s.last_update
        (calculate_hash (f ()).1) (f ()).1.length now).1 = true
    · rw [if_pos hd] at h
      exact absurd h (by simp)
    · rw [if_neg hd]

/-- The stored hash equals the current hash, the stored count equals the
current count and the stored timestamp is the current time: the decision
chain reports no change. -/
theorem decide_update_noop (h : String) (hne : h ≠ "") (cnt now : Nat) :
    (decide_update (some h) cnt (some now) h cnt now).1 = false := by
  have hbeq : (h == "") = false := by
    simp [hne]
  simp only [decide_update, isFalsy, hbeq, Option.getD_some, ne_eq, not_true_eq_false,
    if_false, Bool.false_eq_true, Nat.sub_self]
  by_cases hc : cnt = 0
  · simp [hc]
  · simp [hc]

/-- Processing the state that a run just saved, against the same fetch
outcome at the same time, never updates again. -/
theorem process_account_stable (s : AccountState) (f : Unit → List String × String)
    (now : Nat) : (process_account (state_after s f now) f now).updated = false := by
  by_cases hskip : 3 ≤ s.failures
  · unfold state_after
    rw [process_account_skip s f now hskip]
    show (process_account s f now).updated = false
    rw [process_account_skip s f now hskip]
  · unfold state_after
    rw [process_account_eq s f now hskip]
    by_cases hd : (decide_update s.last_hash s.last_count s.last_update
        (calculate_hash (f ()).1) (f ()).1.length now).1 = true
    · rw [if_pos hd]
      show (process_account
        { last_hash := some (calculate_hash (f ()).1), last_update := some now,
          last_count := (f ()).1.length,
          failures := if (f ()).1 = [] then s.failures + 1 else 0,
          instance_used := some (f ()).2,
          update_reason := some (decide_update s.last_hash s.last_count s.last_update
            (calculate_hash (f ()).1) (f ()).1.length now).2 } f now).updated = false
      by_cases hskip2 : 3 ≤ (if (f ()).1 = [] then s.failures + 1 else 0)
      · rw [process_account_skip _ _ _ hskip2]
      · rw [process_account_eq _ _ _ hskip2]
        have hnoop := decide_update_noop (calculate_hash (f ()).1)
          (calculate_hash_ne_empty (f ()).1) (f ()).1.length now
        simp only []
        rw [if_neg (by simp only [hnoop]; exact Bool.false_ne_true)]
    · rw [if_neg hd]
      show (process_account s f now).updated = false
      rw [process_account_eq s f now hskip, if_neg hd]

/-! ### The account loop of `run` -/

theorem run_loop_states_of_not_mem (acc : List String) (S : String → AccountState)
    (F : String → Unit → List String × String) (now : Nat) (u : String)
    (hu : u ∉ acc) : (run_loop acc S F now).1 u = S u := by
  induction acc generalizing S with
  | nil => rfl
  | cons a rest ih =>
    simp only [List.mem_cons, not_or] at hu
    simp only [run_loop]
    rw [ih _ hu.2, if_neg hu.1]

theorem run_loop_count_zero (acc : List String) (S : String → AccountState)
    (F : String → Unit → List String × String) (now : Nat)
    (h : ∀ a ∈ acc, (process_account (S a) (F a) now).updated = false) :
    (run_loop acc S F now).2 = 0 := by
  induction acc generalizing S with
  | nil => rfl
  | cons a rest ih =>
    have ha := h a (List.mem_cons_self a rest)
    have hnone := savedState_none_of_not_updated (S a) (F a) now ha
    have hst : (fun u => if u = a then
        (process_account (S a) (F a) now).savedState.getD (S a) else S u) = S := by
      funext u
      by_cases hu : u = a
      · rw [if_pos hu, hnone, Option.getD_none, hu]
      · rw [if_neg hu]
    simp only [run_loop]
    rw [hst, ha, ih S (fun b hb => h b (List.mem_cons_of_mem a hb))]
    rfl

theorem run_loop_second_pass (acc : List String) (S : String → AccountState)
    (F : String → Unit → List String × String) (now : Nat) :
    ∀ a ∈ acc, (process_account ((run_loop acc S F now).1 a) (F a) now).updated = false := by
  induction acc generalizing S with
  | nil => intro a ha; cases ha
  | cons b rest ih =>
    intro a ha
    simp only [run_loop]
    by_cases har : a ∈ rest
    · exact ih _ a har
    · have hab : a = b := by
        rcases List.mem_cons.1 ha with h | h
        · exact h
        · exact absurd h har
      subst hab
      rw [run_loop_states_of_not_mem rest _ F now a har, if_pos rfl]
      exact process_account_stable (S a) (F a) now

/--
C6: the feed file is written exactly when the account reports an update,
and running the account loop a second time — same accounts, same
per-account fetch outcomes, immediate succession modelled as the same
clock reading — starting from the states the first pass saved, reports
zero updates, hence zero additional feed-document writes.
-/
theorem C6_second_run_writes_nothing :
    (∀ (s : AccountState) (f : Unit → List String × String) (now : Nat),
        (process_account s f now).feedWritten = (process_account s f now).updated) ∧
    (∀ (accounts : List String) (S : String → AccountState)
        (F : String → Unit → List String × String) (now : Nat),
        (run_loop accounts (run_loop accounts S F now).1 F now).2 = 0) := by
  constructor
  · intro s f now
    by_cases hs : 3 ≤ s.failures
    · rw [process_account_skip s f now hs]
    · rw [process_account_eq s f now hs]
      by_cases hd : (decide_update s.last_hash s.last_count s.last_update
          (calculate_hash (f ()).1) (f ()).1.length now).1 = true
      · rw [if_pos hd]
      · rw [if_neg hd]
  · intro accounts S F now
    exact run_loop_count_zero accounts _ F now (run_loop_second_pass accounts S F now)

/--
C10: a stored consecutive-failures count ≥ 3 is absorbing.  Such an
account is skipped with no fetch, no feed write and no state write, the
result is independent of the fetch outcome, the on-disk state is an exact
fixed point of any number of further runs — so the account stays skipped
forever — and the `--force` reset clears only `last_hash`, leaving the
failures counter (and hence the skip) intact.
-/
theorem C10_failures_absorbing :
    (∀ (s : AccountState) (f g : Unit → List String × String) (now : Nat),
        3 ≤ s.failures →
        (process_account s f now).updated = false ∧
        (process_account s f now).fetched = false ∧
        (process_account s f now).feedWritten = false ∧
        (process_account s f now).savedState = none ∧
        process_account s f now = process_account s g now ∧
        state_after s f now = s) ∧
    (∀ s : AccountState,
        (force_reset s).failures = s.failures ∧ (force_reset s).last_hash = none) ∧
    (∀ (s : AccountState) (f : Unit → List String × String) (now n : Nat),
        3 ≤ s.failures → (fun st => state_after st f now)^[n] s = s) := by
  refine ⟨?_, fun s => ⟨rfl, rfl⟩, ?_⟩
  · intro s f g now h
    rw [process_account_skip s f now h, process_account_skip s g now h]
    refine ⟨rfl, rfl, rfl, rfl, rfl, ?_⟩
    unfold state_after
    rw [process_account_skip s f now h]
    rfl
  · intro s f now n h
    refine Function.iterate_fixed ?_ n
    unfold state_after
    rw [process_account_skip s f now h]
    rfl

/-- Witness for C10 at a concrete dead state, two fetch outcomes and
five iterations. -/
theorem C10_failures_absorbing_witness :
    ((process_account stDead fetchNE 0).updated = false ∧
     (process_account stDead fetchNE 0).fetched = false ∧
     (process_account stDead fetchNE 0).feedWritten = false ∧
     (process_account stDead fetchNE 0).savedState = none ∧
     process_account stDead fetchNE 0 = process_account stDead fetchMT 0 ∧
     state_after stDead fetchNE 0 = stDead) ∧
    ((force_reset stDead).failures = stDead.failures ∧
     (force_reset stDead).last_hash = none) ∧
    (fun st => state_after st fetchMT 7)^[5] stDead = stDead :=
  ⟨C10_failures_absorbing.1 stDead fetchNE fetchMT 0 (by decide),
   C10_failures_absorbing.2.1 stDead,
   C10_failures_absorbing.2.2 stDead fetchMT 7 5 (by decide)⟩

/-- A stored empty-sentinel state with one recorded failure and a fresh
timestamp. -/
def stEmptyF1 : AccountState :=
  { last_hash := some "no_tweets", last_update := some 0, last_count := 0,
    failures := 1, instance_used := none }

/--
C3 counterexample.  The claim says a failure-sentinel fetch always
increments the persisted failures counter and writes no feed document.
In the code both statements fail: with a stored real fingerprint
(`stSeen`) an empty fetch changes the hash to the sentinel, so a
placeholder feed IS written; with a stored sentinel state inside the
keep-alive window (`stEmptyF1`) the decision is NoChange, `save_state` is
never called, and the persisted failures counter stays at 1 instead of
being incremented.
-/
theorem C3_counterexample :
    (fetchMT ()).1 = [] ∧
    (process_account stSeen fetchMT 0).feedWritten = true ∧
    (process_account stEmptyF1 fetchMT 0).updated = false ∧
    (process_account stEmptyF1 fetchMT 0).savedState = none := by
  refine ⟨rfl, by decide, by decide, by decide⟩

/--
C3 as amended: an empty (failure-sentinel) fetch never aborts the run;
the failures counter is persisted as incremented exactly when the run
decides to update (and in exactly those cases a feed document is also
written); on a NoChange decision nothing is saved and nothing is written,
leaving the counter untouched.  An update triggered by a non-empty fetch
resets the counter to 0.
-/
theorem C3_failure_accounting (s : AccountState) (f : Unit → List String × String)
    (now : Nat) (h : s.failures < 3) :
    ((process_account s f now).updated = false →
      (process_account s f now).savedState = none ∧
      (process_account s f now).feedWritten = false) ∧
    ((process_account s f now).updated = true →
      (process_account s f now).feedWritten = true ∧
      ∃ ns : AccountState,
        (process_account s f now).savedState = some ns ∧
        ns.failures = (if (f ()).1 = [] then s.failures + 1 else 0) ∧
        ns.last_hash = some (calculate_hash (f ()).1) ∧
        ns.last_update = some now) := by
  rw [process_account_eq s f now (by omega)]
  by_cases hd : (decide_update s.last_hash s.last_count s.last_update
      (calculate_hash (f ()).1) (f ()).1.length now).1 = true
  · rw [if_pos hd]
    exact ⟨fun hu => Bool.noConfusion hu, fun _ => ⟨rfl, _, rfl, rfl, rfl, rfl⟩⟩
  · rw [if_neg hd]
    exact ⟨fun _ => ⟨rfl, rfl⟩, fun hu => Bool.noConfusion hu⟩

/-- Witness for C3 (amended): a changed-fingerprint empty fetch writes a
placeholder feed and saves the counter incremented to 1; a keep-alive
NoChange empty fetch saves nothing. -/
theorem C3_failure_accounting_witness :
    ((process_account stSeen fetchMT 0).feedWritten = true ∧
      ∃ ns : AccountState,
        (process_account stSeen fetchMT 0).savedState = some ns ∧
        ns.failures = (if (fetchMT ()).1 = [] then stSeen.failures + 1 else 0) ∧
        ns.last_hash = some (calculate_hash (fetchMT ()).1) ∧
        ns.last_update = some 0) ∧
    ((process_account stEmptyF1 fetchMT 0).savedState = none ∧
     (process_account stEmptyF1 fetchMT 0).feedWritten = false) :=
  ⟨(C3_failure_accounting stSeen fetchMT 0 (by decide)).2 (by decide),
   (C3_failure_accounting stEmptyF1 fetchMT 0 (by decide)).1 (by decide)⟩

/--
C4 counterexample.  When every mirror yields nothing, `fetch_tweets`
returns the FIRST mirror's identity `"https://nitter.net"` — a member of
the real mirror list — not a null/sentinel mirror identity as claimed.
-/
theorem C4_counterexample :
    fetch_tweets (fun _ => []) = ([], "https://nitter.net") ∧
    "https://nitter.net" ∈ instances :=
  ⟨rfl, by decide⟩

/--
C4 as amended: if every mirror is exhausted without producing a snippet,
`fetch_tweets` returns the empty snippet sequence paired with the first
mirror's identity (`instance_used` keeps its initialisation
`self.instances[0]`), which is a real mirror identity rather than a null
sentinel.
-/
theorem C4_exhausted_returns_first (extract : String → List String)
    (h : ∀ i ∈ instances, extract i = []) :
    fetch_tweets extract = ([], "https://nitter.net") := by
  have hloop : ∀ l : List String, (∀ i ∈ l, extract i = []) →
      fetch_loop extract l = none := by
    intro l
    induction l with
    | nil => intro _; rfl
    | cons a rest ih =>
      intro hl
      simp only [fetch_loop]
      rw [hl a (List.mem_cons_self a rest), if_pos rfl]
      exact ih (fun i hi => hl i (List.mem_cons_of_mem a hi))
  unfold fetch_tweets
  rw [hloop instances h]
  rfl

/-- Witness for C4 (amended) with the everywhere-empty extractor. -/
theorem C4_exhausted_returns_first_witness :
    fetch_tweets (fun _ => ([] : List String)) = ([], "https://nitter.net") :=
  C4_exhausted_returns_first (fun _ => []) (fun _ _ => rfl)

/-- All-accounts-default disk state. -/
def statesD : String → AccountState := fun _ => default_state

/-- Disk state in which the single account is a stored sentinel inside
the keep-alive window (a normal run will decide NoChange for it). -/
def statesNC : String → AccountState := fun _ => stEmpty

/-- Every account's fetch fails on all mirrors. -/
def fetch0 : String → Unit → List String × String := fun _ => fetchMT

/--
C5 counterexample.  A missing account file makes `run` return `(0, 0)`
and `main` exit with code 1 — but a perfectly normal run over one account
that needs no update also exits with code 1, so the missing-file outcome
is NOT distinguishable from a no-update run, contrary to the claim.
-/
theorem C5_counterexample :
    run none statesD fetch0 0 = (0, 0) ∧
    main_exit none statesD fetch0 0 = 1 ∧
    run (some ["alice"]) statesNC fetch0 0 = (0, 1) ∧
    main_exit (some ["alice"]) statesNC fetch0 0 = 1 := by
  refine ⟨rfl, rfl, by decide, by decide⟩

/--
C5 as amended: when the account-list file is missing the loader yields no
accounts, the run reports the condition and halts before processing any
account, returning `(0 updated, 0 total)`; the process then exits with
code 1, which is the same exit status as a normal run in which no account
needed updating — the two outcomes are not distinguishable by exit code.
-/
theorem C5_missing_file (states : String → AccountState)
    (fetch : String → Unit → List String × String) (now : Nat) :
    load_accounts none = [] ∧
    run none states fetch now = (0, 0) ∧
    main_exit none states fetch now = 1 :=
  ⟨rfl, rfl, rfl⟩

/--
C8 counterexample.  The loader does NOT strip a leading `'@'`: the line
`"@Alice"` is kept as the handle `"@alice"`, whose first character is
`'@'`, contrary to the claim.
-/
theorem C8_counterexample :
    load_accounts (some ["@Alice"]) = ["@alice"] ∧
    ("@alice").data.head? = some '@' := by
  refine ⟨by decide, rfl⟩

/--
C8 as amended: the loader skips blank (after stripping) lines and lines
starting with `'#'`, and keeps every other line stripped and lowercased,
verbatim otherwise — in particular a leading `'@'` is preserved.
-/
theorem C8_loader (lines : List String) :
    load_accounts (some lines) =
      lines.flatMap (fun line =>
        let l := pyStrip line
        if l ≠ "" ∧ ¬ pyStartsWith l "#" then [pyLower l] else []) := by
  show List.foldl _ [] lines = _
  have general : ∀ (ls : List String) (acc : List String),
      List.foldl (fun acc line =>
        let l := pyStrip line
        if l ≠ "" ∧ ¬ pyStartsWith l "#" then acc ++ [pyLower l] else acc) acc ls =
      acc ++ ls.flatMap (fun line =>
        let l := pyStrip line
        if l ≠ "" ∧ ¬ pyStartsWith l "#" then [pyLower l] else []) := by
    intro ls
    induction ls with
    | nil => intro acc; simp
    | cons a rest ih =>
      intro acc
      simp only [List.foldl_cons, List.flatMap_cons]
      by_cases h : pyStrip a ≠ "" ∧ ¬ pyStartsWith (pyStrip a) "#"
      · rw [if_pos h, if_pos h, ih, List.append_assoc]
      · rw [if_neg h, if_neg h, ih, List.nil_append]
  rw [general lines [], List.nil_append]

/-! ### Decimal rendering (`str(int(...))`, i.e. `Nat.repr`) is injective -/

/-- Numeric value of a decimal digit character. -/
def dVal (c : Char) : Nat := c.toNat - 48

/-- Parse a digit string on top of accumulator `a`. -/
def parseAcc (a : Nat) (cs : List Char) : Nat :=
  cs.foldl (fun x c => 10 * x + dVal c) a

theorem toDigitsCore_append (fuel : Nat) : ∀ (n : Nat) (ds : List Char),
    Nat.toDigitsCore 10 fuel n ds = Nat.toDigitsCore 10 fuel n [] ++ ds := by
  induction fuel with
  | zero => intro n ds; rfl
  | succ f ih =>
    intro n ds
    simp only [Nat.toDigitsCore]
    by_cases h : n / 10 = 0
    · rw [if_pos h, if_pos h]
      rfl
    · rw [if_neg h, if_neg h, ih (n / 10) [Nat.digitChar (n % 10)],
        ih (n / 10) (Nat.digitChar (n % 10) :: ds), List.append_assoc]
      rfl

theorem toDigitsCore_fuel (n : Nat) : ∀ (f1 f2 : Nat) (ds : List Char),
    n < f1 → n < f2 →
    Nat.toDigitsCore 10 f1 n ds = Nat.toDigitsCore 10 f2 n ds := by
  induction n using Nat.strong_induction_on with
  | _ n ih =>
    intro f1 f2 ds h1 h2
    match f1, f2 with
    | k1 + 1, k2 + 1 =>
      simp only [Nat.toDigitsCore]
      by_cases h : n / 10 = 0
      · rw [if_pos h, if_pos h]
      · rw [if_neg h, if_neg h]
        have hlt : n / 10 < n := Nat.div_lt_self (by omega) (by omega)
        exact ih (n / 10) hlt k1 k2 _ (by omega) (by omega)

/-- The decimal digit list of `n` rendered by `Nat.repr`. -/
def natDigits (n : Nat) : List Char := Nat.toDigits 10 n

theorem natDigits_small (n : Nat) (h : n < 10) :
    natDigits n = [Nat.digitChar n] := by
  unfold natDigits Nat.toDigits
  simp only [Nat.toDigitsCore]
  rw [if_pos (Nat.div_eq_of_lt h), Nat.mod_eq_of_lt h]

theorem natDigits_split (n : Nat) (h : 10 ≤ n) :
    natDigits n = natDigits (n / 10) ++ [Nat.digitChar (n % 10)] := by
  have hne : n / 10 ≠ 0 := by
    have := Nat.div_le_div_right (c := 10) h
    simpa using fun h0 => by omega
  unfold natDigits Nat.toDigits
  simp only [Nat.toDigitsCore]
  rw [if_neg hne, toDigitsCore_append]
  congr 1
  exact toDigitsCore_fuel (n / 10) n (n / 10 + 1) []
    (Nat.div_lt_self (by omega) (by omega)) (by omega)

theorem dVal_digitChar (m : Nat) (h : m < 10) : dVal (Nat.digitChar m) = m := by
  interval_cases m <;> rfl

theorem parseAcc_append (a : Nat) (xs ys : List Char) :
    parseAcc a (xs ++ ys) = parseAcc (parseAcc a xs) ys := by
  unfold parseAcc
  rw [List.foldl_append]

theorem parseAcc_natDigits (n : Nat) : ∀ a : Nat,
    parseAcc a (natDigits n) = a * 10 ^ (natDigits n).length + n := by
  induction n using Nat.strong_induction_on with
  | _ n ih =>
    intro a
    by_cases h : n < 10
    · rw [natDigits_small n h]
      show 10 * a + dVal (Nat.digitChar n) = a * 10 ^ 1 + n
      rw [dVal_digitChar n h]
      ring
    · have h10 : 10 ≤ n := by omega
      rw [natDigits_split n h10, parseAcc_append]
      have hdiv : n / 10 < n := Nat.div_lt_self (by omega) (by omega)
      rw [ih (n / 10) hdiv a]
      show 10 * (a * 10 ^ (natDigits (n / 10)).length + n / 10) +
          dVal (Nat.digitChar (n % 10)) = _
      rw [dVal_digitChar (n % 10) (Nat.mod_lt n (by omega))]
      rw [List.length_append, List.length_cons, List.length_nil]
      have expand : 10 * (a * 10 ^ (natDigits (n / 10)).length + n / 10) + n % 10 =
          a * (10 ^ (natDigits (n / 10)).length * 10) + (10 * (n / 10) + n % 10) := by
        ring
      rw [expand, Nat.div_add_mod, ← pow_succ]

theorem natRepr_inj (m n : Nat) (h : Nat.repr m = Nat.repr n) : m = n := by
  have hd : natDigits m = natDigits n := by
    have h' : String.mk (natDigits m) = String.mk (natDigits n) := h
    exact congrArg String.data h'
  have h1 := parseAcc_natDigits m 0
  have h2 := parseAcc_natDigits n 0
  simp only [Nat.zero_mul, Nat.zero_add] at h1 h2
  rw [hd, h2] at h1
  exact h1.symm

/-- String concatenation acts as list concatenation on the character data. -/
theorem str_data_append (a b : String) : (a ++ b).data = a.data ++ b.data := by
  cases a
  cases b
  rfl

/--
C9: for every account and the empty snippet list, `generate_rss` produces
exactly one placeholder entry, and placeholder entries generated at
distinct clock readings (`int(time.time())`) have distinct guids.
Successive placeholder generations for one account are at least one
second apart — the loop sleeps 1 s between accounts and runs are minutes
apart — so their integer timestamps, and hence their guids, differ.
-/
theorem C9_placeholder_entry (md5hex8 : String → String) (u : String) (t1 t2 : Nat) :
    (generate_rss md5hex8 u [] t1).length = 1 ∧
    (t1 ≠ t2 →
      ((generate_rss md5hex8 u [] t1).headD default).guid ≠
      ((generate_rss md5hex8 u [] t2).headD default).guid) := by
  constructor
  · rfl
  · intro hne heq
    apply hne
    apply natRepr_inj
    have heq' : "placeholder_" ++ u ++ "_" ++ Nat.repr t1 =
        "placeholder_" ++ u ++ "_" ++ Nat.repr t2 := heq
    have hdata := congrArg String.data heq'
    simp only [str_data_append, List.append_assoc] at hdata
    have h1 := List.append_cancel_left hdata
    have h2 := List.append_cancel_left h1
    have h3 := List.append_cancel_left h2
    exact congrArg String.mk h3

/-- Stub for the external `hashlib.md5` hex digest. -/
def md5stub : String → String := fun _ => ""

/-- Witness for C9 at account `"alice"` and timestamps 0 and 1. -/
theorem C9_placeholder_entry_witness :
    (generate_rss md5stub "alice" [] 0).length = 1 ∧
    ((generate_rss md5stub "alice" [] 0).headD default).guid ≠
    ((generate_rss md5stub "alice" [] 1).headD default).guid :=
  ⟨(C9_placeholder_entry md5stub "alice" 0 1).1,
   (C9_placeholder_entry md5stub "alice" 0 1).2 (by decide)⟩

end TwitterRSS
